import Mathlib

/-!
Verification development for the BookBrainz helper layer
(`src/server/helpers/entityRouteUtils` / `utils` fragment and the
entity-deletion form component).

Each JavaScript function used by the specification is embedded as an
executable Lean definition, translated line-by-line from the source.
Theorems below relate those definitions to the declarative statements of
the specification.
-/

namespace BookBrainz

/-! ## BBID validation

The source defines
`_bbidRegex = /^[0-9a-f]{8}-[0-9a-f]{4}-[0-9a-f]{4}-[0-9a-f]{4}-[0-9a-f]{12}$/`
and `isValidBBID(bbid) = _bbidRegex.test(bbid)`.

The anchored regex is embedded as a deterministic matcher that consumes
the input left to right: runs of lowercase hex digits of fixed lengths,
separated by literal dashes, with nothing left over at the end.
-/

/-- The character class `[0-9a-f]`: a decimal digit or a lowercase hex letter. -/
def isLowerHexDigit (c : Char) : Bool :=
  (('0' ≤ c && c ≤ '9') || ('a' ≤ c && c ≤ 'f'))

/-- Consume exactly `n` characters of class `[0-9a-f]` from the front of the
input, returning the remainder, or `none` if the input does not start with
`n` such characters.  This is the matcher for the regex fragment
`[0-9a-f]{n}`. -/
def consumeHex : Nat → List Char → Option (List Char)
  | 0, l => some l
  | _ + 1, [] => none
  | n + 1, c :: l => if isLowerHexDigit c then consumeHex n l else none

/-- Consume a literal dash from the front of the input. -/
def consumeDash : List Char → Option (List Char)
  | [] => none
  | c :: l => if c = '-' then some l else none

/-- The anchored regex `_bbidRegex` from the source, as a total matcher on the
character list of the input: five hex runs of lengths 8, 4, 4, 4, 12,
separated by dashes, consuming the whole input. -/
def bbidRegexTest (l : List Char) : Bool :=
  match ((((((((consumeHex 8 l).bind consumeDash).bind
      (consumeHex 4)).bind consumeDash).bind
      (consumeHex 4)).bind consumeDash).bind
      (consumeHex 4)).bind consumeDash).bind (consumeHex 12) with
  | some [] => true
  | _ => false

/-- `isValidBBID(bbid) { return _bbidRegex.test(bbid); }` -/
def isValidBBID (bbid : String) : Bool :=
  bbidRegexTest bbid.data

/-- A run of exactly `n` lowercase-hex characters (declarative form of the
regex fragment `[0-9a-f]{n}`). -/
def hexRun (n : Nat) (l : List Char) : Prop :=
  l.length = n ∧ ∀ c ∈ l, isLowerHexDigit c = true

/-- Declarative statement of the specified pattern: the string decomposes as
8 hex characters, a dash, 4 hex, a dash, 4 hex, a dash, 4 hex, a dash and
12 hex characters, with nothing else. -/
def matchesBBIDPattern (s : String) : Prop :=
  ∃ a b c d e : List Char,
    hexRun 8 a ∧ hexRun 4 b ∧ hexRun 4 c ∧ hexRun 4 d ∧ hexRun 12 e ∧
    s.data = a ++ '-' :: (b ++ '-' :: (c ++ '-' :: (d ++ '-' :: e)))

/-! ## Entity and import model registries

The source destructures the ORM object into the five entity models
(`getEntityModels`) and the five import models (`getImportModels`), and
looks a model up by name with `entityModels[type]` / `importModels[type]`,
throwing `new Error(...)` when the lookup is falsy.  Property access on a
JavaScript object literal traverses the prototype chain: besides the five
own keys, names of `Object.prototype` properties (`"toString"`,
`"hasOwnProperty"`, `"constructor"`, ...) resolve to the inherited
property, which is a function or object and therefore truthy, so the falsy
guard does not fire on them.  The lookup is embedded as an `Option`-valued
map whose hits are either an own model or an inherited prototype property,
and the throwing functions return `Except`. -/

/-- A JavaScript `Error` value, identified by its message. -/
structure JSError where
  message : String
deriving DecidableEq

/-- A truthy value produced by property lookup on the destructured model
object: one of the five own model handles, or a property inherited from
`Object.prototype` (a function, or for `"__proto__"` the prototype object
itself — truthy in either case). -/
inductive JSPropValue (Model : Type) where
  | model (m : Model)
  | inherited (name : String)
deriving DecidableEq

/-- The property names every object literal inherits from
`Object.prototype` (the standard ones, including the Annex B accessors
present in browsers and Node). Lookup of any of these on the model object
yields a truthy value instead of `undefined`. -/
def objectPrototypeProps : List String :=
  ["constructor", "hasOwnProperty", "isPrototypeOf", "propertyIsEnumerable",
   "toLocaleString", "toString", "valueOf", "__proto__",
   "__defineGetter__", "__defineSetter__", "__lookupGetter__",
   "__lookupSetter__"]

/-- The BookBrainz ORM handle, holding one model object per entity kind and
per import kind.  The model type is abstract. -/
structure ORM (Model : Type) where
  Creator : Model
  Edition : Model
  Publication : Model
  Publisher : Model
  Work : Model
  CreatorImport : Model
  EditionImport : Model
  PublicationImport : Model
  PublisherImport : Model
  WorkImport : Model

/-- `getEntityModels(orm)` returns the object literal `{Creator, Edition,
Publication, Publisher, Work}`; property lookup on it finds the five own
keys first, then falls back to the prototype chain, and yields `undefined`
(here `none`) only for names found in neither. -/
def getEntityModels {Model : Type} (orm : ORM Model) (name : String) :
    Option (JSPropValue Model) :=
  if name = "Creator" then some (JSPropValue.model orm.Creator)
  else if name = "Edition" then some (JSPropValue.model orm.Edition)
  else if name = "Publication" then some (JSPropValue.model orm.Publication)
  else if name = "Publisher" then some (JSPropValue.model orm.Publisher)
  else if name = "Work" then some (JSPropValue.model orm.Work)
  else if objectPrototypeProps.contains name then
    some (JSPropValue.inherited name)
  else none

/-- `getImportModels(orm)` returns the object literal `{CreatorImport,
EditionImport, PublicationImport, PublisherImport, WorkImport}`, with the
same own-key-then-prototype lookup. -/
def getImportModels {Model : Type} (orm : ORM Model) (name : String) :
    Option (JSPropValue Model) :=
  if name = "CreatorImport" then some (JSPropValue.model orm.CreatorImport)
  else if name = "EditionImport" then some (JSPropValue.model orm.EditionImport)
  else if name = "PublicationImport" then
    some (JSPropValue.model orm.PublicationImport)
  else if name = "PublisherImport" then
    some (JSPropValue.model orm.PublisherImport)
  else if name = "WorkImport" then some (JSPropValue.model orm.WorkImport)
  else if objectPrototypeProps.contains name then
    some (JSPropValue.inherited name)
  else none

/-- The error thrown by `getEntityModelByType`:
`new Error(\x60Unrecognized entity type: '${type}'\x60)`. -/
def unrecognizedEntityTypeError (type : String) : JSError :=
  ⟨"Unrecognized entity type: '" ++ type ++ "'"⟩

/-- The error thrown by `getImportModelByType`:
`new Error('Unrecognized import type')`. -/
def unrecognizedImportTypeError : JSError :=
  ⟨"Unrecognized import type"⟩

/-- `getEntityModelByType(orm, type)`: `if (!entityModels[type]) throw ...;
return entityModels[type];` — returns whatever truthy value the lookup
found (an own model or an inherited prototype property) and throws exactly
when the lookup is `undefined`. -/
def getEntityModelByType {Model : Type} (orm : ORM Model) (type : String) :
    Except JSError (JSPropValue Model) :=
  match getEntityModels orm type with
  | some v => Except.ok v
  | none => Except.error (unrecognizedEntityTypeError type)

/-- `getImportModelByType(orm, type)`: the same guarded lookup on the
import-model object. -/
def getImportModelByType {Model : Type} (orm : ORM Model) (type : String) :
    Except JSError (JSPropValue Model) :=
  match getImportModels orm type with
  | some v => Except.ok v
  | none => Except.error unrecognizedImportTypeError

/-! ## Identifier-type filtering -/

/-- An identifier-type record, as used by the filters: an `id` and the
`entityType` it belongs to. -/
structure IdentifierType where
  id : Nat
  entityType : String
deriving DecidableEq

/-- The `type` reference held by an identifier (`identifier.type.id`). -/
structure IdentifierTypeRef where
  id : Nat
deriving DecidableEq

/-- An identifier attached to an entity. -/
structure Identifier where
  type : IdentifierTypeRef
deriving DecidableEq

/-- `entity.identifierSet.identifiers`. -/
structure IdentifierSet where
  identifiers : List Identifier
deriving DecidableEq

/-- The part of an entity record read by `filterIdentifierTypesByEntity`:
its `type` and its optional `identifierSet`. -/
structure FilterEntity where
  type : String
  identifierSet : Option IdentifierSet
deriving DecidableEq

/-- `filterIdentifierTypesByEntityType(identifierTypes, entityType)`:
`identifierTypes.filter((type) => type.entityType === entityType)`. -/
def filterIdentifierTypesByEntityType
    (identifierTypes : List IdentifierType) (entityType : String) :
    List IdentifierType :=
  identifierTypes.filter (fun type => type.entityType == entityType)

/-- `filterIdentifierTypesByEntity(identifierTypes, entity)`: when the entity
has no identifier set or its identifier list is empty, defer to
`filterIdentifierTypesByEntityType`; otherwise collect the identifier-type
ids on the entity and keep a type when its `entityType` matches or its id is
in that collection.  The JavaScript `Set` with `has` is embedded as the list
of collected ids with membership test; only membership is observable. -/
def filterIdentifierTypesByEntity
    (identifierTypes : List IdentifierType) (entity : FilterEntity) :
    List IdentifierType :=
  match entity.identifierSet with
  | none => filterIdentifierTypesByEntityType identifierTypes entity.type
  | some s =>
    if s.identifiers.length < 1 then
      filterIdentifierTypesByEntityType identifierTypes entity.type
    else
      let typesOnEntity := s.identifiers.map (fun identifier => identifier.type.id)
      identifierTypes.filter
        (fun type => type.entityType == entity.type
          || typesOnEntity.contains type.id)

/-- The identifier-type ids already present on the entity (the contents of
the `typesOnEntity` set). -/
def attachedTypeIds (s : IdentifierSet) : List Nat :=
  s.identifiers.map (fun identifier => identifier.type.id)

/-- Spec-side function, written from the specification words for
`filterByEntityType`: the subsequence of the input whose elements have
`entityType` equal to the given value, in input order. -/
def entityTypeSubseq (entityType : String) :
    List IdentifierType → List IdentifierType
  | [] => []
  | t :: rest =>
    if t.entityType = entityType then t :: entityTypeSubseq entityType rest
    else entityTypeSubseq entityType rest

/-- Spec-side function, written from the specification words for the
non-degenerate branch of `filterByEntity`: the subsequence of the input
whose elements either have the entity's `entityType` or an id among the
attached identifier-type ids, in input order. -/
def entitySubseq (entityType : String) (ids : List Nat) :
    List IdentifierType → List IdentifierType
  | [] => []
  | t :: rest =>
    if t.entityType = entityType ∨ t.id ∈ ids then
      t :: entitySubseq entityType ids rest
    else entitySubseq entityType ids rest

/-! ## Presentation helpers -/

/-- The `defaultAlias` record of an entity, with its `name` field. -/
structure EntityAlias where
  name : String

/-- The part of an entity read by `createEntityPageTitle`: an optional
`defaultAlias`.  A missing or `undefined` `name` is represented by the empty
string, which is the falsy string. -/
structure TitledEntity where
  defaultAlias : Option EntityAlias

/-- The argument object passed to the title template: `{name: ...}`. -/
structure NameObject where
  name : String

/-- `createEntityPageTitle(entity, titleForUnnamed, templateForNamed)`:
start from the fallback title and overwrite it with
`templateForNamed({name: entity.defaultAlias.name})` exactly when
`entity && entity.defaultAlias && entity.defaultAlias.name` is truthy.
An absent entity is `none`; a string is truthy iff it is nonempty. -/
def createEntityPageTitle (entity : Option TitledEntity)
    (titleForUnnamed : String) (templateForNamed : NameObject → String) :
    String :=
  match entity with
  | none => titleForUnnamed
  | some e =>
    match e.defaultAlias with
    | none => titleForUnnamed
    | some al => if al.name = "" then titleForUnnamed
                 else templateForNamed ⟨al.name⟩

/-- The part of an entity read by `getEntityLink` and by the deletion form:
its `type` and `bbid` strings. -/
structure LinkedEntity where
  type : String
  bbid : String

/-- `getEntityLink(entity)`: the template literal
`/${entity.type.toLowerCase()}/${entity.bbid}`. -/
def getEntityLink (entity : LinkedEntity) : String :=
  "/" ++ entity.type.toLower ++ "/" ++ entity.bbid

/-! ## EntityDeletionForm URLs (deletion.js)

`render` sets `this.entityUrl = \x60/${entity.type.toLowerCase()}/${entity.bbid}\x60`
and `this.deleteUrl = \x60${this.entityUrl}/delete/handler\x60`; `entityUrl` is
the Cancel button's `href` and `deleteUrl` the POST target. -/

/-- The `entityUrl` computed by `EntityDeletionForm.render`. -/
def entityDeletionFormEntityUrl (entity : LinkedEntity) : String :=
  "/" ++ entity.type.toLower ++ "/" ++ entity.bbid

/-- The `deleteUrl` computed by `EntityDeletionForm.render`. -/
def entityDeletionFormDeleteUrl (entity : LinkedEntity) : String :=
  entityDeletionFormEntityUrl entity ++ "/delete/handler"

/-- A concrete ORM over `Nat` model handles, for instantiating the
registry theorems. -/
def sampleOrm : ORM Nat :=
  ⟨1, 2, 3, 4, 5, 6, 7, 8, 9, 10⟩

lemma consumeHex_eq_some {n : Nat} {l r : List Char} :
    consumeHex n l = some r ↔ ∃ a, hexRun n a ∧ l = a ++ r := by
  induction n generalizing l with
  | zero =>
    simp only [consumeHex, Option.some_inj, hexRun]
    constructor
    · rintro rfl
      exact ⟨[], ⟨rfl, by simp⟩, rfl⟩
    · rintro ⟨a, ⟨ha, -⟩, rfl⟩
      rw [List.length_eq_zero] at ha
      simp [ha]
  | succ n ih =>
    cases l with
    | nil =>
      simp only [consumeHex, hexRun]
      constructor
      · intro h
        exact absurd h (by simp)
      · rintro ⟨a, ⟨ha, -⟩, hl⟩
        have : a = [] := (List.append_eq_nil.mp hl.symm).1
        subst this
        simp at ha
    | cons c l =>
      simp only [consumeHex]
      by_cases hc : isLowerHexDigit c = true
      · rw [if_pos hc, ih]
        constructor
        · rintro ⟨a, ⟨hlen, hhex⟩, rfl⟩
          exact ⟨c :: a, ⟨by simp [hlen], by
            intro x hx
            rcases List.mem_cons.mp hx with rfl | hx
            · exact hc
            · exact hhex x hx⟩, rfl⟩
        · rintro ⟨a, ⟨hlen, hhex⟩, hl⟩
          cases a with
          | nil => simp at hlen
          | cons a₀ a =>
            simp only [List.cons_append] at hl
            injection hl with h1 h2
            subst h1
            exact ⟨a, ⟨by simpa using hlen,
              fun x hx => hhex x (List.mem_cons_of_mem _ hx)⟩, h2⟩
      · rw [if_neg hc]
        constructor
        · intro h
          exact absurd h (by simp)
        · rintro ⟨a, ⟨hlen, hhex⟩, hl⟩
          cases a with
          | nil => simp at hlen
          | cons a₀ a =>
            simp only [List.cons_append] at hl
            injection hl with h1 h2
            subst h1
            exact absurd (hhex c (List.mem_cons_self c a)) hc

lemma consumeDash_eq_some {l r : List Char} :
    consumeDash l = some r ↔ l = '-' :: r := by
  cases l with
  | nil => simp [consumeDash]
  | cons c l =>
    simp only [consumeDash]
    by_cases hc : c = '-'
    · subst hc
      simp
    · rw [if_neg hc]
      simp [hc]

/-- The executable matcher agrees with the declarative pattern. -/
lemma bbidRegexTest_iff (s : String) :
    bbidRegexTest s.data = true ↔ matchesBBIDPattern s := by
  unfold bbidRegexTest matchesBBIDPattern
  constructor
  · intro h
    split at h
    case h_2 => exact absurd h (by simp)
    case h_1 heq =>
      rw [Option.bind_eq_some] at heq
      obtain ⟨l₈, h₈, heq⟩ := heq
      rw [Option.bind_eq_some] at h₈
      obtain ⟨l₇, h₇, h₈⟩ := h₈
      rw [Option.bind_eq_some] at h₇
      obtain ⟨l₆, h₆, h₇⟩ := h₇
      rw [Option.bind_eq_some] at h₆
      obtain ⟨l₅, h₅, h₆⟩ := h₆
      rw [Option.bind_eq_some] at h₅
      obtain ⟨l₄, h₄, h₅⟩ := h₅
      rw [Option.bind_eq_some] at h₄
      obtain ⟨l₃, h₃, h₄⟩ := h₄
      rw [Option.bind_eq_some] at h₃
      obtain ⟨l₂, h₂, h₃⟩ := h₃
      rw [Option.bind_eq_some] at h₂
      obtain ⟨l₁, h₁, h₂⟩ := h₂
      rw [consumeHex_eq_some] at h₁ heq h₃ h₅ h₇
      rw [consumeDash_eq_some] at h₂ h₄ h₆ h₈
      obtain ⟨a, ha, hA⟩ := h₁
      obtain ⟨b, hb, hB⟩ := h₃
      obtain ⟨c, hc, hC⟩ := h₅
      obtain ⟨d, hd, hD⟩ := h₇
      obtain ⟨e, he, hE⟩ := heq
      refine ⟨a, b, c, d, e, ha, hb, hc, hd, he, ?_⟩
      rw [hA, h₂, hB, h₄, hC, h₆, hD, h₈, hE]
      simp
  · rintro ⟨a, b, c, d, e, ha, hb, hc, hd, he, hs⟩
    rw [hs]
    have h₁ : consumeHex 8 (a ++ '-' :: (b ++ '-' :: (c ++ '-' :: (d ++ '-' :: e))))
        = some ('-' :: (b ++ '-' :: (c ++ '-' :: (d ++ '-' :: e)))) :=
      consumeHex_eq_some.mpr ⟨a, ha, rfl⟩
    have h₃ : consumeHex 4 (b ++ '-' :: (c ++ '-' :: (d ++ '-' :: e)))
        = some ('-' :: (c ++ '-' :: (d ++ '-' :: e))) :=
      consumeHex_eq_some.mpr ⟨b, hb, rfl⟩
    have h₅ : consumeHex 4 (c ++ '-' :: (d ++ '-' :: e))
        = some ('-' :: (d ++ '-' :: e)) :=
      consumeHex_eq_some.mpr ⟨c, hc, rfl⟩
    have h₇ : consumeHex 4 (d ++ '-' :: e) = some ('-' :: e) :=
      consumeHex_eq_some.mpr ⟨d, hd, rfl⟩
    have h₉ : consumeHex 12 e = some [] :=
      consumeHex_eq_some.mpr ⟨e, he, by simp⟩
    simp [h₁, h₃, h₅, h₇, h₉, consumeDash]

lemma entityTypeSubseq_eq_filter (entityType : String)
    (l : List IdentifierType) :
    entityTypeSubseq entityType l
      = l.filter (fun t => t.entityType == entityType) := by
  induction l with
  | nil => rfl
  | cons t rest ih =>
    by_cases h : t.entityType = entityType
    · simp [entityTypeSubseq, List.filter_cons, h, ih]
    · simp [entityTypeSubseq, List.filter_cons, h, ih]

lemma entitySubseq_eq_filter (entityType : String) (ids : List Nat)
    (l : List IdentifierType) :
    entitySubseq entityType ids l
      = l.filter (fun t => t.entityType == entityType || ids.contains t.id) := by
  induction l with
  | nil => rfl
  | cons t rest ih =>
    by_cases h : t.entityType = entityType ∨ t.id ∈ ids
    · rw [entitySubseq, if_pos h, List.filter_cons, ih, if_pos ?_]
      rcases h with h | h <;> simp [h]
    · rw [entitySubseq, if_neg h, List.filter_cons, ih, if_neg ?_]
      push_neg at h
      simp [h.1, h.2]

/-- C1: `isValidBBID` returns `true` exactly on strings matching the pattern
`8 hex - 4 hex - 4 hex - 4 hex - 12 hex` with lowercase hex digits, and
`false` on every other string (uppercase hex, wrong dash placement or wrong
length all fail the decomposition). -/
theorem isValidBBID_iff_matchesPattern (s : String) :
    isValidBBID s = true ↔ matchesBBIDPattern s := by
  rw [isValidBBID, bbidRegexTest_iff]

/-- C8: `isValidBBID` is total on strings: it always yields a boolean, and a
malformed identifier is surfaced as the boolean `false`, never as an
error. -/
theorem isValidBBID_total (s : String) :
    (isValidBBID s = true ∨ isValidBBID s = false) ∧
    (¬ matchesBBIDPattern s → isValidBBID s = false) := by
  constructor
  · cases isValidBBID s
    · exact Or.inr rfl
    · exact Or.inl rfl
  · intro hm
    cases h : isValidBBID s
    · rfl
    · rw [isValidBBID] at h
      exact absurd ((bbidRegexTest_iff s).mp h) hm

/-- Witness for C8 at the concrete malformed input `"not-a-bbid"`. -/
theorem isValidBBID_total_witness :
    isValidBBID "not-a-bbid" = false :=
  (isValidBBID_total "not-a-bbid").2
    (fun hm => absurd ((bbidRegexTest_iff "not-a-bbid").mpr hm) (by decide))

/-- C2 (code bug): the claim — and the source's own doc comment, which
promises a throw whenever the name does not map to a model — fail at the
name `"toString"`: property lookup finds the inherited, truthy
`Object.prototype.toString`, so `getEntityModelByType` returns it as a
success instead of failing with the `Unrecognized entity type` error.
The five entity kind names still return their own model handles. -/
theorem getEntityModelByType_toString_bug :
    getEntityModelByType sampleOrm "toString"
      = Except.ok (JSPropValue.inherited "toString") ∧
    getEntityModelByType sampleOrm "Creator"
      = Except.ok (JSPropValue.model 1) ∧
    getEntityModelByType sampleOrm "Nonexistent"
      = Except.error (unrecognizedEntityTypeError "Nonexistent") := by
  refine ⟨?_, rfl, rfl⟩
  rfl

/-- C4 (code bug): the same dropped prototype-chain case in the import
registry — `importModels["toString"]` is the inherited truthy
`Object.prototype.toString`, so no `Unrecognized import type` error is
thrown at `"toString"`.  The two registries' errors do remain distinct
(different messages), as the third conjunct records for a genuine miss. -/
theorem getImportModelByType_toString_bug :
    getImportModelByType sampleOrm "toString"
      = Except.ok (JSPropValue.inherited "toString") ∧
    getImportModelByType sampleOrm "Creator"
      = Except.error unrecognizedImportTypeError ∧
    unrecognizedImportTypeError ≠ unrecognizedEntityTypeError "Creator" := by
  refine ⟨rfl, rfl, ?_⟩
  intro h
  have hm := congrArg JSError.message h
  have hl := congrArg String.length hm
  rw [unrecognizedImportTypeError, unrecognizedEntityTypeError] at hl
  simp only [String.length_append] at hl
  have h24 : ("Unrecognized import type" : String).length = 24 := by decide
  have h27 : ("Unrecognized entity type: '" : String).length = 27 := by decide
  have h1 : ("'" : String).length = 1 := by decide
  rw [h24, h27, h1] at hl
  omega

/-- C5: `filterIdentifierTypesByEntityType` returns exactly the subsequence
of the input whose elements have the given `entityType`, in input order. -/
theorem filterIdentifierTypesByEntityType_spec
    (identifierTypes : List IdentifierType) (entityType : String) :
    filterIdentifierTypesByEntityType identifierTypes entityType
      = entityTypeSubseq entityType identifierTypes := by
  rw [filterIdentifierTypesByEntityType, entityTypeSubseq_eq_filter]

/-- C3: with no identifiers on the entity, `filterIdentifierTypesByEntity`
degrades to `filterIdentifierTypesByEntityType`; otherwise it returns
exactly the subsequence of the input whose elements match the entity's type
or carry an already-attached identifier-type id, in input order. -/
theorem filterIdentifierTypesByEntity_spec
    (identifierTypes : List IdentifierType) (entity : FilterEntity) :
    ((entity.identifierSet = none ∨ entity.identifierSet = some ⟨[]⟩) →
      filterIdentifierTypesByEntity identifierTypes entity
        = filterIdentifierTypesByEntityType identifierTypes entity.type) ∧
    (∀ s, entity.identifierSet = some s → s.identifiers ≠ [] →
      filterIdentifierTypesByEntity identifierTypes entity
        = entitySubseq entity.type (attachedTypeIds s) identifierTypes) := by
  constructor
  · rintro (h | h) <;>
      simp [filterIdentifierTypesByEntity, h]
  · intro s hset hne
    have hlen : ¬ s.identifiers.length < 1 := by
      simpa [Nat.lt_one_iff, List.length_eq_zero] using hne
    obtain ⟨etype, eset⟩ := entity
    dsimp only at hset
    subst hset
    simp only [filterIdentifierTypesByEntity]
    rw [if_neg hlen, entitySubseq_eq_filter]
    rfl

/-- Witness for C3, at the specification's own example: entity of type
`"Work"` carrying an identifier of type id 9; a cross-type identifier type
with id 9 and a matching `"Work"` type are kept, an unrelated one is
dropped; and an identifier-free entity degrades to the by-type filter. -/
theorem filterIdentifierTypesByEntity_spec_witness :
    filterIdentifierTypesByEntity
        [⟨9, "Creator"⟩, ⟨2, "Work"⟩, ⟨3, "Edition"⟩]
        ⟨"Work", some ⟨[⟨⟨9⟩⟩]⟩⟩
      = entitySubseq "Work" (attachedTypeIds ⟨[⟨⟨9⟩⟩]⟩)
          [⟨9, "Creator"⟩, ⟨2, "Work"⟩, ⟨3, "Edition"⟩] ∧
    entitySubseq "Work" (attachedTypeIds ⟨[⟨⟨9⟩⟩]⟩)
        [⟨9, "Creator"⟩, ⟨2, "Work"⟩, ⟨3, "Edition"⟩]
      = [⟨9, "Creator"⟩, ⟨2, "Work"⟩] ∧
    filterIdentifierTypesByEntity [⟨9, "Creator"⟩, ⟨2, "Work"⟩] ⟨"Work", none⟩
      = filterIdentifierTypesByEntityType [⟨9, "Creator"⟩, ⟨2, "Work"⟩] "Work" :=
  ⟨(filterIdentifierTypesByEntity_spec
      [⟨9, "Creator"⟩, ⟨2, "Work"⟩, ⟨3, "Edition"⟩]
      ⟨"Work", some ⟨[⟨⟨9⟩⟩]⟩⟩).2 ⟨[⟨⟨9⟩⟩]⟩ rfl (by decide),
   by decide,
   (filterIdentifierTypesByEntity_spec [⟨9, "Creator"⟩, ⟨2, "Work"⟩]
      ⟨"Work", none⟩).1 (Or.inl rfl)⟩

/-- C6: `createEntityPageTitle` yields the fallback title when the entity is
absent or has no populated display name, and otherwise applies the template
to `{name: entity.defaultAlias.name}`. -/
theorem createEntityPageTitle_spec (entity : Option TitledEntity)
    (titleForUnnamed : String) (templateForNamed : NameObject → String) :
    ((entity = none ∨ (∃ e, entity = some e ∧ e.defaultAlias = none) ∨
        (∃ e al, entity = some e ∧ e.defaultAlias = some al ∧ al.name = "")) →
      createEntityPageTitle entity titleForUnnamed templateForNamed
        = titleForUnnamed) ∧
    (∀ e al, entity = some e → e.defaultAlias = some al → al.name ≠ "" →
      createEntityPageTitle entity titleForUnnamed templateForNamed
        = templateForNamed ⟨al.name⟩) := by
  constructor
  · rintro (rfl | ⟨e, rfl, ha⟩ | ⟨e, al, rfl, ha, hn⟩)
    · rfl
    · simp [createEntityPageTitle, ha]
    · simp [createEntityPageTitle, ha, hn]
  · rintro e al rfl ha hn
    simp [createEntityPageTitle, ha, hn]

/-- Witness for C6 at the specification's example: a named entity produces
the templated title, an absent entity the fallback. -/
theorem createEntityPageTitle_spec_witness :
    createEntityPageTitle (some ⟨some ⟨"Alice"⟩⟩) "Unnamed"
        (fun t => "Edit " ++ t.name) = "Edit Alice" ∧
    createEntityPageTitle none "Unnamed"
        (fun t => "Edit " ++ t.name) = "Unnamed" :=
  ⟨((createEntityPageTitle_spec (some ⟨some ⟨"Alice"⟩⟩) "Unnamed"
      (fun t => "Edit " ++ t.name)).2 ⟨some ⟨"Alice"⟩⟩ ⟨"Alice"⟩ rfl rfl
      (by decide)).trans (by decide),
   (createEntityPageTitle_spec none "Unnamed"
      (fun t => "Edit " ++ t.name)).1 (Or.inl rfl)⟩

/-- C9: an entity whose `defaultAlias` exists but whose name is the empty
string counts as unnamed — the empty string is falsy, so the fallback title
is returned and the template is not consulted. -/
theorem createEntityPageTitle_emptyName (titleForUnnamed : String)
    (templateForNamed : NameObject → String) :
    createEntityPageTitle (some ⟨some ⟨""⟩⟩) titleForUnnamed templateForNamed
      = titleForUnnamed := by
  simp [createEntityPageTitle]

/-- C7: `getEntityLink` is the pure formatting
`"/" ++ lowercased type ++ "/" ++ bbid`; the equation holds for every
`type` and `bbid` with no hypothesis, so no re-validation of either field
takes place. -/
theorem getEntityLink_spec (entity : LinkedEntity) :
    getEntityLink entity = "/" ++ entity.type.toLower ++ "/" ++ entity.bbid :=
  rfl

/-- C10: the entity URL computed inline by `EntityDeletionForm.render`
coincides with `getEntityLink`, and its delete-handler URL extends that
same URL. -/
theorem entityDeletionFormEntityUrl_eq_getEntityLink (entity : LinkedEntity) :
    entityDeletionFormEntityUrl entity = getEntityLink entity ∧
    entityDeletionFormDeleteUrl entity
      = getEntityLink entity ++ "/delete/handler" :=
  ⟨rfl, rfl⟩

end BookBrainz
